import Mathlib

/-!
Verification of the voice-local-ai demo scripts.

This file shallowly embeds the turn-taking / cleanup logic of the
`examples/*.py` voice-chat scripts: the Python string predicates used for
keyword dispatch, the response dispatchers of `push_to_talk_chat.py` and
`voice_chat.py`, the conversation loops, the waveform normalization step,
the artifact write/play/delete sequence, the clean-exit signal path of
`clean_exit_voice_chat.py`, and the push-to-talk chunk capture.

Machine floats are modelled by exact rationals, Python `str` by `String`,
Python exceptions by explicit outcome flags, and the filesystem by the
list of paths that currently exist.
-/

/-- Python `needle in hay` on strings: substring containment over the
character list (the empty needle is contained in everything). -/
def substrAux (n : List Char) : List Char → Bool
  | [] => n.isEmpty
  | c :: rest => n.isPrefixOf (c :: rest) || substrAux n rest

/-- Python `needle in hay` for `str` operands. -/
def pyIn (needle hay : String) : Bool :=
  substrAux needle.data hay.data

/-- Python `any(word in hay for word in ws)`. -/
def anyIn (ws : List String) (hay : String) : Bool :=
  ws.any (fun w => pyIn w hay)

/-- Python `s.lower()` (ASCII lowering, character by character). -/
def pyLower (s : String) : String :=
  String.mk (s.data.map Char.toLower)

/-- Accumulator pass behind `pySplit`: `cur` holds the reversed current
word. -/
def splitWsAux : List Char → List Char → List String
  | [], cur => if cur.isEmpty then [] else [String.mk cur.reverse]
  | c :: rest, cur =>
      if c.isWhitespace then
        if cur.isEmpty then splitWsAux rest []
        else String.mk cur.reverse :: splitWsAux rest []
      else splitWsAux rest (c :: cur)

/-- Python `s.split()`: split on whitespace runs, dropping empty pieces. -/
def pySplit (s : String) : List String :=
  splitWsAux s.data []

/-- The punctuation set of `strip('.,!?')` in the name-extraction code. -/
def stripSet : List Char := ".,!?".data

/-- Python `s.strip('.,!?')`: drop those characters from both ends. -/
def pyStrip (s : String) : String :=
  String.mk
    (((s.data.dropWhile (fun c => stripSet.contains c)).reverse.dropWhile
      (fun c => stripSet.contains c)).reverse)

/-- Python truthiness of an optional string field such as `self.user_name`
(initialized to `None`): `None` and the empty string are falsy. -/
def optStrTruthy : Option String → Bool
  | none => false
  | some s => s != ""

/-! ## Waveform normalization (`synthesize_response`)

`push_to_talk_chat.py` / `smart_edge_voice_chat.py`:
`if np.max(np.abs(wav)) > 0: wav = wav / np.max(np.abs(wav)) * 0.8`;
`ultra_fast_voice_chat.py` uses the factor `0.7` instead.
Samples are modelled as exact rationals. -/

/-- `np.max(np.abs(wav))`: peak absolute amplitude (0 for the empty list). -/
def peakAbs (wav : List ℚ) : ℚ :=
  wav.foldr (fun x m => max |x| m) 0

/-- The normalization step with its target factor (`0.8` or `0.7`). -/
def pyNormalize (target : ℚ) (wav : List ℚ) : List ℚ :=
  if 0 < peakAbs wav then wav.map (fun x => x / peakAbs wav * target) else wav

/-- Normalization target of `PushToTalkChat.synthesize_response` and
`SmartEdgeVoiceChat.synthesize_response` (the literal `0.8`). -/
def pttNormTarget : ℚ := 8 / 10

/-- Normalization target of `UltraFastVoiceChat.synthesize_response`
(the literal `0.7`). -/
def ultraFastNormTarget : ℚ := 7 / 10

theorem peakAbs_nonneg (w : List ℚ) : 0 ≤ peakAbs w := by
  induction w with
  | nil => simp [peakAbs]
  | cons x xs ih =>
      simp only [peakAbs, List.foldr_cons] at *
      exact le_max_of_le_right ih

theorem peakAbs_map_scale (w : List ℚ) (p t : ℚ) (hp : 0 < p) (ht : 0 ≤ t) :
    peakAbs (w.map (fun x => x / p * t)) = peakAbs w / p * t := by
  induction w with
  | nil => simp [peakAbs]
  | cons x xs ih =>
      simp only [peakAbs, List.map_cons, List.foldr_cons] at *
      rw [ih]
      have habs : |x / p * t| = |x| / p * t := by
        rw [abs_mul, abs_div, abs_of_nonneg ht, abs_of_pos hp]
      rw [habs]
      have hdiv : ∀ a : ℚ, a / p * t = a * (t / p) := by
        intro a; ring
      rw [hdiv, hdiv, hdiv]
      exact (max_mul_of_nonneg _ _ (by positivity : (0:ℚ) ≤ t / p)).symm

example : peakAbs [1/2, -3/4] = 3/4 := by
  norm_num [peakAbs, max_def, abs]
example : pyNormalize pttNormTarget [1/2] = [8/10] := by
  norm_num [peakAbs, pyNormalize, pttNormTarget, max_def, abs]
example : pyNormalize ultraFastNormTarget [1] = [7/10] := by
  norm_num [peakAbs, pyNormalize, ultraFastNormTarget, max_def, abs]
example : pyNormalize pttNormTarget [] = [] := by
  norm_num [peakAbs, pyNormalize]

/-! ## The push-to-talk response dispatcher (`PushToTalkChat.generate_response`)

State carried across turns: `conversation_history`, `user_name`,
`response_count`.  The wall-clock reading consumed by the time branch
(`time.strftime("%I:%M %p")`) is passed in as an explicit `clock` input. -/

/-- Mutable session state of `PushToTalkChat` touched by
`generate_response`. History entries are `(speaker, text)` pairs. -/
structure PttState where
  userName : Option String
  history : List (String × String)
  responseCount : Nat
  deriving Repr, DecidableEq

/-- The fresh state set up in `PushToTalkChat.__init__`. -/
def pttFreshState : PttState :=
  { userName := none, history := [], responseCount := 0 }

/-- The inner loop of the name-extraction block:
`for i, word in enumerate(words): if word.lower() in ['name','is','am',"i'm"]
and i + 1 < len(words): ... words[i+1].strip('.,!?') ... break`. -/
def findNameTok : List String → Option String
  | w :: nxt :: rest =>
      if (["name", "is", "am", "i\x27m"].contains (pyLower w)) then
        some (pyStrip nxt)
      else findNameTok (nxt :: rest)
  | _ => none

/-- The guarded name-extraction step shared by `PushToTalkChat` and
`SmartEdgeVoiceChat`: fires only when the lowered input contains one of
the self-introduction cues. -/
def pyNameExtract (u : String) : Option String :=
  if anyIn ["my name is", "i am", "i\x27m"] (pyLower u) then
    findNameTok (pySplit u)
  else none

/-- The state mutations `generate_response` performs before selecting a
reply: bump `response_count`, append the user turn to history, and run
name extraction when `user_name` is still falsy. -/
def pttUpdateState (st : PttState) (u : String) : PttState :=
  let userName :=
    if !optStrTruthy st.userName then
      match pyNameExtract u with
      | some n => some n
      | none => st.userName
    else st.userName
  { userName := userName,
    history := st.history ++ [("user", u)],
    responseCount := st.responseCount + 1 }

/-- The rotation pool of the final `else` branch of
`PushToTalkChat.generate_response`. -/
def pttDefaultResponses : List String :=
  ["That\x27s really interesting! Tell me more about that.",
   "I see what you mean. Can you elaborate on that?",
   "That sounds fascinating! What else can you tell me?",
   "Thanks for sharing that. What\x27s your take on it?",
   "I appreciate you telling me that. How do you feel about it?",
   "That\x27s a good point. What made you think of that?",
   "I\x27m listening! Please continue.",
   "That\x27s something worth discussing. Tell me more.",
   "I find that interesting. What\x27s your perspective?",
   "Thanks for bringing that up. It\x27s definitely worth talking about."]

/-- The if/elif reply chain of `PushToTalkChat.generate_response`,
evaluated against the state after the mutations above (the Python code
mutates `self` first, then branches). -/
def pttSelectReply (st : PttState) (u : String) (clock : String) : String :=
  let lower := (pyLower u)
  if anyIn ["hello", "hi", "hey", "good morning"] lower then
    if optStrTruthy st.userName then
      "Hey " ++ st.userName.getD "" ++ "! How\x27s it going today?"
    else
      "Hi there! Nice to meet you. What\x27s your name?"
  else if anyIn ["how are you", "how\x27s it going"] lower then
    "I\x27m doing great! No more audio feedback issues with push-to-talk. How about you?"
  else if anyIn ["work", "job", "career"] lower then
    "Work sounds interesting! What do you do for a living?"
  else if anyIn ["family", "parents", "kids"] lower then
    "Family is so important! Tell me about yours if you\x27d like."
  else if anyIn ["hobby", "sport", "music", "gaming"] lower then
    "That sounds fun! What kind of hobbies do you enjoy?"
  else if anyIn ["food", "eat", "restaurant"] lower then
    "Food is great! What\x27s your favorite type of cuisine?"
  else if anyIn ["time", "clock"] lower then
    "It\x27s " ++ clock ++ ". How\x27s your day going?"
  else if anyIn ["thank", "thanks"] lower then
    "You\x27re welcome! I\x27m happy to help. What else would you like to talk about?"
  else if anyIn ["goodbye", "bye", "quit", "exit"] lower then
    if optStrTruthy st.userName then
      "Goodbye " ++ st.userName.getD "" ++ "! It was great chatting without audio feedback!"
    else
      "Goodbye! Thanks for the conversation!"
  else
    pttDefaultResponses.getD (st.responseCount % pttDefaultResponses.length) ""

/-- `PushToTalkChat.generate_response`: returns the updated session state
and the reply string. -/
def pttGenerateResponse (st : PttState) (u : String) (clock : String) :
    PttState × String :=
  let st1 := pttUpdateState st u
  (st1, pttSelectReply st1 u clock)

example : pyIn "my name is" ((pyLower "Hi, my name is Dave")) = true := by decide
example : pySplit "Hi, my name is Dave" = ["Hi,", "my", "name", "is", "Dave"] := by decide
example : pyNameExtract "Hi, my name is Dave" = some "is" := by decide
example : pyNameExtract "I am Dave" = some "Dave" := by decide
example :
    (pttGenerateResponse pttFreshState "Hi, my name is Dave" "01:00 PM").2 =
      "Hey is! How\x27s it going today?" := by decide

/-! ## The voice_chat response dispatcher (`VoiceChat.generate_response`)

Stateless: it reads no session state. The default branch draws with
`random.choice`; the draw is modelled by an ambient index `ridx` selecting
`responses[ridx % len(responses)]`. The time branch's
`time.strftime("%I:%M %p")` reading is the explicit `clock` input. -/

/-- The `random.choice` pool of the final `else` branch of
`VoiceChat.generate_response`. -/
def vcDefaultResponses : List String :=
  ["That\x27s really interesting! Tell me more about that.",
   "I understand what you\x27re saying. Can you elaborate on that?",
   "That sounds fascinating! I\x27d love to hear more.",
   "Thanks for sharing that with me. What else is on your mind?",
   "I appreciate you telling me that. How do you feel about it?",
   "That\x27s a great point. What made you think of that?",
   "I\x27m listening and learning from our conversation. Please continue."]

/-- `VoiceChat.generate_response`: the if/elif reply chain. -/
def vcGenerateResponse (u : String) (ridx : Nat) (clock : String) : String :=
  let lower := pyLower u
  if anyIn ["hello", "hi", "hey", "good morning", "good afternoon"] lower then
    "Hello! Nice to meet you. How are you doing today?"
  else if anyIn ["how are you", "how do you do", "how\x27s it going"] lower then
    "I\x27m doing great, thank you for asking! I\x27m excited to have this conversation with you."
  else if anyIn ["what", "who", "where", "when", "why", "how"] lower then
    "That\x27s an interesting question. I\x27m still learning, but I\x27d be happy to discuss it with you."
  else if anyIn ["thank", "thanks"] lower then
    "You\x27re very welcome! I\x27m glad I could help."
  else if anyIn ["goodbye", "bye", "see you", "farewell"] lower then
    "Goodbye! It was great talking with you. Have a wonderful day!"
  else if anyIn ["name", "call"] lower then
    "I\x27m an AI assistant powered by NeuTTS Air. You can call me whatever you\x27d like!"
  else if anyIn ["weather", "sunny", "rainy", "cloudy"] lower then
    "I don\x27t have access to real-time weather data, but I hope you\x27re having a nice day regardless!"
  else if anyIn ["time", "clock", "hour", "minute"] lower then
    "The current time is " ++ clock ++ ". How can I help you with your day?"
  else
    vcDefaultResponses.getD (ridx % vcDefaultResponses.length) ""

/-! ## The conversation loops

`VoiceChat.run_conversation` and `PushToTalkChat.run_conversation` are
modelled as recursion over the finite list of capture results the session
will observe; an exhausted list means the loop is still running (it would
block listening for the next utterance). A capture result is either a
failed capture (`listen` returned `None`: timeout, unintelligible speech,
service error, or empty push-to-talk recording) or a transcript together
with the ambient inputs of that iteration (whether `synthesize_response`
raises internally, and for voice_chat the `random.choice` index). -/

/-- Exit test of `VoiceChat.run_conversation` (line 173):
`any(word in user_input.lower() for word in ['goodbye','quit','exit','stop'])`. -/
def vcIsExit (t : String) : Bool :=
  anyIn ["goodbye", "quit", "exit", "stop"] (pyLower t)

/-- Exit test of `PushToTalkChat.run_conversation` (line 319): same with
`'bye'` added. -/
def pttIsExit (t : String) : Bool :=
  anyIn ["goodbye", "quit", "exit", "stop", "bye"] (pyLower t)

/-- One capture result of the voice_chat loop. -/
inductive VCInput where
  | captureFail
  | heard (t : String) (ridx : Nat) (clock : String) (synthFails : Bool)
  deriving Repr, DecidableEq

/-- Observable outcome of running the voice_chat loop on a finite list of
capture results: final history, number of inputs consumed, number of
regular-turn syntheses, number of farewell syntheses, and whether the
loop hit `break`. -/
structure VcRunOut where
  history : List (String × String)
  consumed : Nat
  regularSynths : Nat
  farewellSynths : Nat
  stopped : Bool
  deriving Repr, DecidableEq

/-- `VoiceChat.run_conversation`: `None` capture results `continue`;
an exit transcript synthesizes the fixed farewell and breaks (before any
history append); otherwise the turn is appended to history, a reply
generated and synthesized, and the loop repeats. A failed synthesis is
swallowed inside `synthesize_response` and changes nothing. -/
def vcRunConversation (hist : List (String × String)) :
    List VCInput → VcRunOut
  | [] => ⟨hist, 0, 0, 0, false⟩
  | .captureFail :: rest =>
      let o := vcRunConversation hist rest
      { o with consumed := o.consumed + 1 }
  | .heard t ridx clock _sf :: rest =>
      if vcIsExit t then
        ⟨hist, 1, 0, 1, true⟩
      else
        let hist1 := hist ++ [("user", t)]
        let resp := vcGenerateResponse t ridx clock
        let hist2 := hist1 ++ [("assistant", resp)]
        let o := vcRunConversation hist2 rest
        { o with consumed := o.consumed + 1,
                 regularSynths := o.regularSynths + 1 }

/-- One capture result of the push-to-talk loop. -/
inductive PttInput where
  | captureFail
  | heard (t : String) (synthFails : Bool)
  deriving Repr, DecidableEq

/-- Whether a capture result triggers the push-to-talk exit check. -/
def pttInputIsExit : PttInput → Bool
  | .captureFail => false
  | .heard t _ => pttIsExit t

/-- Whether a capture result triggers the voice_chat exit check. -/
def vcInputIsExit : VCInput → Bool
  | .captureFail => false
  | .heard t _ _ _ => vcIsExit t

/-- Observable outcome of the push-to-talk loop. -/
structure PttRunOut where
  state : PttState
  consumed : Nat
  regularSynths : Nat
  farewellSynths : Nat
  stopped : Bool
  deriving Repr, DecidableEq

/-- `PushToTalkChat.run_conversation`: on an exit transcript it still
calls `generate_response` (mutating the session state), synthesizes that
farewell reply once, and breaks; otherwise it generates and synthesizes a
regular reply and repeats. `clock` is the stream of wall-clock readings,
indexed by the number of `generate_response` calls made so far (`k`). -/
def pttRunConversation (clock : Nat → String) (k : Nat) (st : PttState) :
    List PttInput → PttRunOut
  | [] => ⟨st, 0, 0, 0, false⟩
  | .captureFail :: rest =>
      let o := pttRunConversation clock k st rest
      { o with consumed := o.consumed + 1 }
  | .heard t _sf :: rest =>
      if pttIsExit t then
        let p := pttGenerateResponse st t (clock k)
        ⟨p.1, 1, 0, 1, true⟩
      else
        let p := pttGenerateResponse st t (clock k)
        let o := pttRunConversation clock (k + 1) p.1 rest
        { o with consumed := o.consumed + 1,
                 regularSynths := o.regularSynths + 1 }

example :
    (vcRunConversation [] [.heard "bye" 0 "01:00 PM" false, .captureFail]).stopped
      = false := by decide
example :
    (vcRunConversation [] [.heard "goodbye" 0 "01:00 PM" false, .captureFail])
      = ⟨[], 1, 0, 1, true⟩ := by decide
example :
    (pttRunConversation (fun _ => "01:00 PM") 0 pttFreshState
      [.heard "bye" false, .captureFail]).stopped = true := by decide

/-! ## Artifact write / play / delete (`synthesize_response`)

The filesystem is the list of paths that currently exist. The body of
`synthesize_response` sits in one `try/except Exception` block:
`infer` → (normalize) → `sf.write(path)` → `subprocess.run(afplay)` →
`if returncode != 0: print` → `if os.path.exists(path): os.remove(path)`.
Each external call may raise; a raise jumps to the `except`, which only
prints — the statements after the raising call are skipped. -/

/-- Result of one `synthesize_response` call: the surviving filesystem
and whether a nonzero playback exit status was logged. -/
structure SynthFsOut where
  fs : List String
  loggedPlaybackError : Bool
  deriving Repr, DecidableEq

/-- The write/play/cleanup tail of `synthesize_response`, shared verbatim
by `VoiceChat` and `PushToTalkChat` (only the `path` differs).
`inferRaises`: the TTS call raises (nothing is written);
`playRaises`: `subprocess.run` itself raises (e.g. the player binary is
missing), skipping the cleanup statements; `playExitCode`: the player's
exit status when it does run. -/
def synthArtifactRun (fs : List String) (path : String)
    (inferRaises playRaises : Bool) (playExitCode : Int) : SynthFsOut :=
  if inferRaises then ⟨fs, false⟩
  else
    let fs1 := path :: fs
    if playRaises then ⟨fs1, false⟩
    else
      let logged := playExitCode != 0
      if fs1.contains path then ⟨fs1.erase path, logged⟩ else ⟨fs1, logged⟩

/-! ## Artifact naming across the variants -/

/-- `VoiceChat.synthesize_response` line 140: the artifact path for the
`i`-th invocation — the code computes it from no per-invocation data at
all, `os.path.abspath("temp_response.wav")`. -/
def vcOutputPathAt (_i : Nat) : String := "temp_response.wav"

/-- The interpolated artifact name `f"temp_response_{x}.wav"` used by
`PushToTalkChat` (with `x` the first 8 chars of a `uuid4`) and by
`CleanExitVoiceChat` (with `x` the millisecond timestamp). -/
def uniqueOutputPath (x : String) : String :=
  "temp_response_" ++ x ++ ".wav"

/-! ## Clean-exit signal path (`clean_exit_voice_chat.py`)

`signal_handler` runs `self.running = False; self.cleanup(); sys.exit(0)`.
`sys.exit(0)` raises `SystemExit(0)`, which is *not* caught by
`run_conversation`'s `except KeyboardInterrupt` but does run its
`finally`, which calls `self.cleanup()` again; `main`'s
`except Exception` does not catch `SystemExit` either, so the process
exits with status 0. Cleanup is modelled by counting its executions
(its body only kills players and best-effort-deletes temp files, every
failure swallowed). -/

/-- Process-wide state of `CleanExitVoiceChat` relevant to shutdown. -/
structure CEState where
  running : Bool
  cleanupRuns : Nat
  deriving Repr, DecidableEq

/-- `CleanExitVoiceChat.cleanup`: best-effort resource release; modelled
as one more execution of the cleanup body. -/
def ceCleanup (s : CEState) : CEState :=
  { s with cleanupRuns := s.cleanupRuns + 1 }

/-- Python exceptions that cross frames in this shutdown path. -/
inductive PyExc where
  | systemExit (code : Nat)
  | keyboardInterrupt
  deriving Repr, DecidableEq

/-- `CleanExitVoiceChat.signal_handler`: flip `running`, run cleanup,
then `sys.exit(0)` (raise `SystemExit 0`). -/
def ceSignalHandler (s : CEState) : CEState × PyExc :=
  let s1 := { s with running := false }
  let s2 := ceCleanup s1
  (s2, .systemExit 0)

/-- `run_conversation` when a signal is delivered while the loop is
blocked inside its `try` body: the handler runs and its exception
propagates; `except KeyboardInterrupt` catches only that; the `finally`
always runs `cleanup` again. Returns the escaping exception, if any. -/
def ceRunConversationSignalled (s : CEState) : CEState × Option PyExc :=
  let p := ceSignalHandler s
  match p.2 with
  | .keyboardInterrupt => (ceCleanup p.1, none)
  | .systemExit c => (ceCleanup p.1, some (.systemExit c))

/-- `main` around the signalled conversation: `except Exception` does not
catch `SystemExit`; the `finally` only prints. Returns the final state
and the process exit status. -/
def ceMainSignalled (s : CEState) : CEState × Nat :=
  let p := ceRunConversationSignalled s
  match p.2 with
  | some (.systemExit c) => (p.1, c)
  | _ => (p.1, 0)

/-! ## Push-to-talk capture (`PushToTalkChat.listen_with_push_to_talk`)

After the worker thread is joined, `self.audio_data` holds the recorded
chunks. `if not self.audio_data: return None` guards the concatenation
`sr.AudioData(b''.join(...), self.audio_data[0].sample_rate,
self.audio_data[0].sample_width)`, which indexes the first chunk. -/

/-- One recorded chunk: raw bytes plus its sample metadata. -/
structure AudioChunk where
  raw : List Nat
  sampleRate : Nat
  sampleWidth : Nat
  deriving Repr, DecidableEq

/-- The combined `sr.AudioData` value. -/
structure AudioData where
  raw : List Nat
  sampleRate : Nat
  sampleWidth : Nat
  deriving Repr, DecidableEq

/-- The post-join tail of `listen_with_push_to_talk`, as a function of
the chunk sequence the worker produced: `None` (empty capture) when no
chunks were recorded, otherwise the concatenation of all chunks with the
first chunk's metadata. -/
def pttCombineCapture (chunks : List AudioChunk) : Option AudioData :=
  match chunks with
  | [] => none
  | c :: rest =>
      some ⟨((c :: rest).map AudioChunk.raw).flatten, c.sampleRate, c.sampleWidth⟩

/-! ## The smart_edge profile update (`SmartEdgeVoiceChat.generate_smart_response`)

Only the state mutations matter for the frame claim: the reply branches
below them (all `random.choice` draws) never write `user_name`. The
mutations, in source order: bump `response_count`, update
`topics_discussed` with the extracted keywords, append the user turn to
history, and run the same guarded name extraction as `PushToTalkChat`. -/

/-- The topic→keyword table of `SmartEdgeVoiceChat.extract_keywords`. -/
def smartTopicTable : List (String × List String) :=
  [("work", ["work", "job", "career", "office", "business", "company"]),
   ("family", ["family", "parents", "mother", "father", "sister", "brother", "children", "kids"]),
   ("hobbies", ["hobby", "hobbies", "sport", "music", "art", "reading", "gaming", "travel"]),
   ("food", ["food", "eat", "restaurant", "cooking", "recipe", "meal", "hungry"]),
   ("weather", ["weather", "rain", "sunny", "cloudy", "hot", "cold", "temperature"]),
   ("technology", ["computer", "phone", "internet", "ai", "technology", "software", "app"]),
   ("emotions", ["happy", "sad", "angry", "excited", "tired", "worried", "nervous", "calm"]),
   ("time", ["time", "clock", "hour", "minute", "today", "tomorrow", "yesterday", "weekend"]),
   ("location", ["home", "work", "school", "store", "park", "city", "country", "travel"])]

/-- `SmartEdgeVoiceChat.extract_keywords`: topics whose keyword set hits
the lowered input. -/
def smartExtractKeywords (t : String) : List String :=
  (smartTopicTable.filter (fun p => anyIn p.2 (pyLower t))).map Prod.fst

/-- Session state of `SmartEdgeVoiceChat` touched by
`generate_smart_response`; the Python `set` of topics is modelled as a
duplicate-free insertion list. -/
structure SmartState where
  userName : Option String
  topicsDiscussed : List String
  responseCount : Nat
  history : List (String × String)
  deriving Repr, DecidableEq

/-- The state mutations of `generate_smart_response` (everything that
writes `self`; reply selection below them only reads). -/
def smartProfileUpdate (st : SmartState) (u : String) : SmartState :=
  let topics := (smartExtractKeywords u).foldl
    (fun acc k => if acc.contains k then acc else acc ++ [k]) st.topicsDiscussed
  let userName :=
    if !optStrTruthy st.userName then
      match pyNameExtract u with
      | some n => some n
      | none => st.userName
    else st.userName
  { userName := userName,
    topicsDiscussed := topics,
    responseCount := st.responseCount + 1,
    history := st.history ++ [("user", u)] }

example : (ceMainSignalled ⟨true, 0⟩) = (⟨false, 2⟩, 0) := by decide
example : pttCombineCapture [] = none := by decide
example : smartExtractKeywords "my job and my food" = ["work", "food"] := by decide

/-! ## Helper lemmas -/

/-- Running the push-to-talk loop past a prefix of non-exit capture
results and into an exit transcript stops with exactly one farewell
synthesis and consumes nothing beyond the exit transcript. -/
theorem pttRun_stops_at_exit (clock : Nat → String) (pre : List PttInput) :
    ∀ (k : Nat) (st : PttState) (t : String) (sf : Bool) (post : List PttInput),
      (∀ i ∈ pre, pttInputIsExit i = false) → pttIsExit t = true →
      (pttRunConversation clock k st (pre ++ .heard t sf :: post)).stopped = true ∧
      (pttRunConversation clock k st (pre ++ .heard t sf :: post)).consumed = pre.length + 1 ∧
      (pttRunConversation clock k st (pre ++ .heard t sf :: post)).farewellSynths = 1 := by
  induction pre with
  | nil =>
      intro k st t sf post _ ht
      simp [pttRunConversation, ht]
  | cons i pre ih =>
      intro k st t sf post hpre ht
      have hpre1 : ∀ j ∈ pre, pttInputIsExit j = false :=
        fun j hj => hpre j (List.mem_cons_of_mem _ hj)
      have hi : pttInputIsExit i = false := hpre i (List.mem_cons_self _ _)
      cases i with
      | captureFail =>
          obtain ⟨h1, h2, h3⟩ := ih k st t sf post hpre1 ht
          refine ⟨?_, ?_, ?_⟩ <;>
            simp [pttRunConversation, h1, h2, h3]
      | heard u sf1 =>
          have hu : pttIsExit u = false := by simpa [pttInputIsExit] using hi
          obtain ⟨h1, h2, h3⟩ :=
            ih (k + 1) (pttGenerateResponse st u (clock k)).1 t sf post hpre1 ht
          refine ⟨?_, ?_, ?_⟩ <;>
            simp [pttRunConversation, hu, h1, h2, h3]

/-- Same for the voice_chat loop with its own exit set. -/
theorem vcRun_stops_at_exit (pre : List VCInput) :
    ∀ (hist : List (String × String)) (t : String) (ridx : Nat)
      (clk : String) (sf : Bool) (post : List VCInput),
      (∀ i ∈ pre, vcInputIsExit i = false) → vcIsExit t = true →
      (vcRunConversation hist (pre ++ .heard t ridx clk sf :: post)).stopped = true ∧
      (vcRunConversation hist (pre ++ .heard t ridx clk sf :: post)).consumed = pre.length + 1 ∧
      (vcRunConversation hist (pre ++ .heard t ridx clk sf :: post)).farewellSynths = 1 := by
  induction pre with
  | nil =>
      intro hist t ridx clk sf post _ ht
      simp [vcRunConversation, ht]
  | cons i pre ih =>
      intro hist t ridx clk sf post hpre ht
      have hpre1 : ∀ j ∈ pre, vcInputIsExit j = false :=
        fun j hj => hpre j (List.mem_cons_of_mem _ hj)
      have hi : vcInputIsExit i = false := hpre i (List.mem_cons_self _ _)
      cases i with
      | captureFail =>
          obtain ⟨h1, h2, h3⟩ := ih hist t ridx clk sf post hpre1 ht
          refine ⟨?_, ?_, ?_⟩ <;>
            simp [vcRunConversation, h1, h2, h3]
      | heard u ridx1 clk1 sf1 =>
          have hu : vcIsExit u = false := by simpa [vcInputIsExit] using hi
          obtain ⟨h1, h2, h3⟩ :=
            ih (hist ++ [("user", u), ("assistant", vcGenerateResponse u ridx1 clk1)])
              t ridx clk sf post hpre1 ht
          refine ⟨?_, ?_, ?_⟩ <;>
            simp [vcRunConversation, hu, h1, h2, h3]

/-- Pulling the peak to the target: normalizing any waveform with nonzero
peak yields peak exactly `target` (for a nonnegative target). -/
theorem pyNormalize_peak (target : ℚ) (ht : 0 ≤ target) (w : List ℚ)
    (hw : 0 < peakAbs w) : peakAbs (pyNormalize target w) = target := by
  unfold pyNormalize
  rw [if_pos hw, peakAbs_map_scale w _ target hw ht, div_self (ne_of_gt hw), one_mul]

/-- Silence passes through normalization untouched. -/
theorem pyNormalize_silent (target : ℚ) (w : List ℚ) (hw : peakAbs w = 0) :
    pyNormalize target w = w := by
  unfold pyNormalize
  rw [if_neg (by rw [hw]; exact lt_irrefl 0)]

/-! ## Claim C1 -/

/-- C1 — counterexample. The claim asserts the exit-phrase set
`{goodbye, quit, exit, stop, bye}` for both conversation loops, but
`VoiceChat.run_conversation` checks only `['goodbye','quit','exit','stop']`:
the transcript `"bye"` contains the claimed exit phrase `"bye"` as a
case-insensitive substring, yet the voice_chat loop does not stop — it
synthesizes a regular reply and begins a further capture iteration. -/
theorem c1_counterexample :
    pyIn "bye" (pyLower "bye") = true ∧
    (vcRunConversation [] [.heard "bye" 0 "01:00 PM" false, .captureFail]).stopped = false ∧
    (vcRunConversation [] [.heard "bye" 0 "01:00 PM" false, .captureFail]).consumed = 2 ∧
    (vcRunConversation [] [.heard "bye" 0 "01:00 PM" false, .captureFail]).farewellSynths = 0 := by
  decide

/-- C1 (amended): with each loop's own exit set — `{goodbye, quit, exit,
stop, bye}` for `PushToTalkChat.run_conversation` but only `{goodbye,
quit, exit, stop}` for `VoiceChat.run_conversation` — a transcript
matching the loop's exit check causes exactly one farewell synthesis and
stops the loop: no further capture result is consumed after it. -/
theorem c1_exit_phrase_stops_loop :
    (∀ (clock : Nat → String) (k : Nat) (st : PttState) (pre : List PttInput)
        (t : String) (sf : Bool) (post : List PttInput),
        (∀ i ∈ pre, pttInputIsExit i = false) → pttIsExit t = true →
        (pttRunConversation clock k st (pre ++ .heard t sf :: post)).stopped = true ∧
        (pttRunConversation clock k st (pre ++ .heard t sf :: post)).consumed = pre.length + 1 ∧
        (pttRunConversation clock k st (pre ++ .heard t sf :: post)).farewellSynths = 1)
  ∧ (∀ (hist : List (String × String)) (pre : List VCInput) (t : String)
        (ridx : Nat) (clk : String) (sf : Bool) (post : List VCInput),
        (∀ i ∈ pre, vcInputIsExit i = false) → vcIsExit t = true →
        (vcRunConversation hist (pre ++ .heard t ridx clk sf :: post)).stopped = true ∧
        (vcRunConversation hist (pre ++ .heard t ridx clk sf :: post)).consumed = pre.length + 1 ∧
        (vcRunConversation hist (pre ++ .heard t ridx clk sf :: post)).farewellSynths = 1) :=
  ⟨fun clock k st pre t sf post hpre ht =>
      pttRun_stops_at_exit clock pre k st t sf post hpre ht,
   fun hist pre t ridx clk sf post hpre ht =>
      vcRun_stops_at_exit pre hist t ridx clk sf post hpre ht⟩

/-- C1 — witness: a concrete session for each loop. In the push-to-talk
loop the transcript `"Goodbye now"` after one failed capture and one
regular turn stops the loop with one farewell; similarly for voice_chat
with `"please stop"`. -/
theorem c1_witness :
    ((pttRunConversation (fun _ => "01:00 PM") 0 pttFreshState
        [.captureFail, .heard "hello" false, .heard "Goodbye now" false,
         .heard "hello again" false]).stopped = true ∧
     (pttRunConversation (fun _ => "01:00 PM") 0 pttFreshState
        [.captureFail, .heard "hello" false, .heard "Goodbye now" false,
         .heard "hello again" false]).consumed = 3 ∧
     (pttRunConversation (fun _ => "01:00 PM") 0 pttFreshState
        [.captureFail, .heard "hello" false, .heard "Goodbye now" false,
         .heard "hello again" false]).farewellSynths = 1) ∧
    ((vcRunConversation [] [.captureFail, .heard "please stop" 2 "01:00 PM" false,
         .heard "hello" 3 "01:00 PM" false]).stopped = true ∧
     (vcRunConversation [] [.captureFail, .heard "please stop" 2 "01:00 PM" false,
         .heard "hello" 3 "01:00 PM" false]).consumed = 2 ∧
     (vcRunConversation [] [.captureFail, .heard "please stop" 2 "01:00 PM" false,
         .heard "hello" 3 "01:00 PM" false]).farewellSynths = 1) :=
  ⟨c1_exit_phrase_stops_loop.1 (fun _ => "01:00 PM") 0 pttFreshState
      [.captureFail, .heard "hello" false] "Goodbye now" false
      [.heard "hello again" false] (by decide) (by decide),
   c1_exit_phrase_stops_loop.2 [] [.captureFail] "please stop" 2 "01:00 PM" false
      [.heard "hello" 3 "01:00 PM" false] (by decide) (by decide)⟩

/-! ## Claim C2 -/

/-- C2 — counterexample. The claim asserts the configured target `0.8`
for `UltraFastVoiceChat.synthesize_response` as well, but that variant
normalizes with the literal `0.7`: the waveform `[1]` comes out with peak
`0.7`, not `0.8`. -/
theorem c2_counterexample :
    ultraFastNormTarget = 7/10 ∧
    pyNormalize ultraFastNormTarget [1] = [7/10] ∧
    peakAbs (pyNormalize ultraFastNormTarget [1]) ≠ 8/10 := by
  refine ⟨by norm_num [ultraFastNormTarget], ?_, ?_⟩ <;>
    norm_num [pyNormalize, peakAbs, ultraFastNormTarget, max_def, abs]

/-- C2 (amended): for every waveform with nonzero peak absolute
amplitude, normalization rescales it so the resulting peak equals the
variant's configured target — `0.8` in `PushToTalkChat` and
`SmartEdgeVoiceChat`, `0.7` in `UltraFastVoiceChat` (exact over ℚ, hence
within any floating tolerance); a silent waveform is returned unchanged
and no division occurs. -/
theorem c2_normalization_peak (w : List ℚ) :
    (0 < peakAbs w →
      peakAbs (pyNormalize pttNormTarget w) = 8/10 ∧
      peakAbs (pyNormalize ultraFastNormTarget w) = 7/10) ∧
    (peakAbs w = 0 →
      pyNormalize pttNormTarget w = w ∧ pyNormalize ultraFastNormTarget w = w) := by
  constructor
  · intro hw
    constructor
    · rw [pyNormalize_peak pttNormTarget (by norm_num [pttNormTarget]) w hw]
      norm_num [pttNormTarget]
    · rw [pyNormalize_peak ultraFastNormTarget (by norm_num [ultraFastNormTarget]) w hw]
      norm_num [ultraFastNormTarget]
  · intro hw
    exact ⟨pyNormalize_silent _ w hw, pyNormalize_silent _ w hw⟩

/-- C2 — witness: a concrete loud waveform reaches the two targets, and
a concrete silent waveform passes through unchanged. -/
theorem c2_witness :
    (peakAbs (pyNormalize pttNormTarget [1/2, -1/4]) = 8/10 ∧
     peakAbs (pyNormalize ultraFastNormTarget [1/2, -1/4]) = 7/10) ∧
    (pyNormalize pttNormTarget [0, 0] = [0, 0] ∧
     pyNormalize ultraFastNormTarget [0, 0] = [0, 0]) :=
  ⟨(c2_normalization_peak [1/2, -1/4]).1 (by norm_num [peakAbs, max_def, abs]),
   (c2_normalization_peak [0, 0]).2 (by norm_num [peakAbs, max_def, abs])⟩

/-! ## Claim C3 -/

/-- C3 — counterexample. Deletion is *not* in a `finally`-equivalent
block: it is straight-line code inside the `try` body after the playback
call. When `subprocess.run` itself raises (e.g. the player binary is
absent), control jumps to the `except` handler and the artifact written
by `sf.write` survives the call. -/
theorem c3_counterexample :
    "temp_response_ab12cd34.wav" ∈
      (synthArtifactRun [] "temp_response_ab12cd34.wav" false true 0).fs := by
  decide

/-- C3 (amended): the artifact is deleted whenever the playback call
returns — including a playback failure reported through a nonzero exit
status, which is only logged — but the deletion sits after the playback
call inside the `try` body, not in a `finally` block, so a playback call
that raises leaves the artifact on disk (and a synthesis failure before
the write creates no artifact at all). -/
theorem c3_artifact_deleted_unless_playback_raises :
    ∀ (fs : List String) (path : String) (inferRaises : Bool) (ec : Int),
      path ∉ fs →
      path ∉ (synthArtifactRun fs path inferRaises false ec).fs := by
  intro fs path ir ec hnot
  cases ir with
  | true => simpa [synthArtifactRun] using hnot
  | false =>
      have hc : (path :: fs).contains path = true := by simp
      simp only [synthArtifactRun, Bool.false_eq_true, if_false, hc, if_true]
      rw [List.erase_cons_head]
      exact hnot

/-- C3 — witness: a run with a nonzero playback exit status still removes
the artifact (and logs the error). -/
theorem c3_witness :
    "temp_response_9f.wav" ∉
      (synthArtifactRun ["other.wav"] "temp_response_9f.wav" false false 1).fs :=
  c3_artifact_deleted_unless_playback_raises ["other.wav"]
    "temp_response_9f.wav" false 1 (by decide)

/-! ## Claim C4 -/

/-- The fresh state set up in `SmartEdgeVoiceChat.__init__`. -/
def smartFreshState : SmartState :=
  { userName := none, topicsDiscussed := [], responseCount := 0, history := [] }

/-- C4 — the code evaluated at the claimed input. For
`"Hi, my name is Dave"` the extraction loop matches the cue word
`"name"` first (at index 2) and stores the next token `"is"` — not
`"Dave"` as the claim and the spec's own example require; the personalized
greeting then addresses the user as `"is"`. The cue list
`['name','is','am',"i'm"]` only yields the actual name for `"i am X"`
style inputs; for `"my name is X"` it is off by one, contradicting the
evident intent of the extraction block. -/
theorem c4_name_extraction_bug :
    (pttGenerateResponse pttFreshState "Hi, my name is Dave" "01:00 PM").1.userName
        = some "is" ∧
    (pttGenerateResponse pttFreshState "Hi, my name is Dave" "01:00 PM").1.userName
        ≠ some "Dave" ∧
    (pttGenerateResponse pttFreshState "Hi, my name is Dave" "01:00 PM").2
        = "Hey is! How\x27s it going today?" ∧
    (smartProfileUpdate smartFreshState "Hi, my name is Dave").userName = some "is" ∧
    pyNameExtract "I am Dave" = some "Dave" := by
  decide

/-! ## Claim C5 -/

/-- C5 — counterexample. `VoiceChat.synthesize_response` computes the
artifact path from no per-invocation data: every invocation writes the
same fixed literal `temp_response.wav`, so two distinct invocations do
not produce distinct paths. -/
theorem c5_counterexample :
    vcOutputPathAt 0 = vcOutputPathAt 1 ∧
    vcOutputPathAt 0 = "temp_response.wav" := by
  decide

/-- C5 (amended): `PushToTalkChat` (uuid4 prefix) and
`CleanExitVoiceChat` (millisecond timestamp) interpolate a per-call
identifier into `temp_response_{id}.wav`, so distinct identifier strings
give distinct artifact paths; `VoiceChat` (like `SmartEdgeVoiceChat` and
`UltraFastVoiceChat`) instead reuses the fixed literal
`temp_response.wav` on every invocation. -/
theorem c5_artifact_path_uniqueness :
    (∀ a b : String, a ≠ b → uniqueOutputPath a ≠ uniqueOutputPath b) ∧
    (∀ i j : Nat, vcOutputPathAt i = vcOutputPathAt j) := by
  constructor
  · intro a b hne heq
    apply hne
    have hdata := congrArg String.data heq
    simp only [uniqueOutputPath, String.data_append] at hdata
    rw [List.append_assoc, List.append_assoc] at hdata
    have h1 := List.append_cancel_left hdata
    have h2 := List.append_cancel_right h1
    cases a; cases b
    exact congrArg String.mk h2
  · intro i j
    rfl

/-- C5 — witness: two concrete distinct identifiers give distinct
artifact paths. -/
theorem c5_witness :
    uniqueOutputPath "ab12cd34" ≠ uniqueOutputPath "ef56ab78" :=
  c5_artifact_path_uniqueness.1 "ab12cd34" "ef56ab78" (by decide)

/-! ## Claim C6 -/

/-- The reply chain reads the wall clock only inside the `time`/`clock`
branch; when that branch's guard is false the reply is clock-independent. -/
theorem pttSelectReply_clock_free (st : PttState) (u : String) (c c' : String)
    (h : anyIn ["time", "clock"] (pyLower u) = false) :
    pttSelectReply st u c = pttSelectReply st u c' := by
  unfold pttSelectReply
  simp [h]

/-- Lifted to the whole dispatcher call (the state update never reads
the clock). -/
theorem pttGenerateResponse_clock_free (st : PttState) (u : String)
    (c c' : String) (h : anyIn ["time", "clock"] (pyLower u) = false) :
    pttGenerateResponse st u c = pttGenerateResponse st u c' := by
  show (pttUpdateState st u, pttSelectReply (pttUpdateState st u) u c)
      = (pttUpdateState st u, pttSelectReply (pttUpdateState st u) u c')
  rw [pttSelectReply_clock_free (pttUpdateState st u) u c c' h]

/-- Replies of a dispatcher-call sequence, fed with the wall-clock
reading stream `clock` starting at call index `k` (the model of running
`generate_response` over a list of utterances in one session). -/
def pttRespondSeq (clock : Nat → String) (k : Nat) (st : PttState) :
    List String → List String
  | [] => []
  | u :: rest =>
      let p := pttGenerateResponse st u (clock k)
      p.2 :: pttRespondSeq clock (k + 1) p.1 rest

/-- C6 — counterexample. The dispatcher is not deterministic across two
independent runs: the `time` branch embeds the wall-clock reading, so the
same single-utterance sequence from a fresh profile yields different
replies in runs whose clocks differ. -/
theorem c6_counterexample :
    pttRespondSeq (fun _ => "01:00 PM") 0 pttFreshState ["What time is it"] ≠
    pttRespondSeq (fun _ => "02:00 PM") 0 pttFreshState ["What time is it"] := by
  decide

/-- C6 (amended): the push-to-talk rotation dispatcher is deterministic
up to its ambient wall-clock input: for any utterance sequence in which
no utterance contains `"time"` or `"clock"` (so the clock-reading branch
is never taken), the reply sequence from any common starting state is
identical across two runs regardless of their clock streams; an
utterance reaching the time branch (and, in `SmartEdgeVoiceChat`, the
`random.choice` draws) breaks run-to-run reproducibility. -/
theorem c6_dispatcher_deterministic_without_time :
    ∀ (us : List String),
      (∀ u ∈ us, anyIn ["time", "clock"] (pyLower u) = false) →
      ∀ (clock clock' : Nat → String) (k k' : Nat) (st : PttState),
        pttRespondSeq clock k st us = pttRespondSeq clock' k' st us := by
  intro us
  induction us with
  | nil => intro _ clock clock' k k' st; rfl
  | cons u rest ih =>
      intro hus clock clock' k k' st
      have hu : anyIn ["time", "clock"] (pyLower u) = false :=
        hus u (List.mem_cons_self _ _)
      have hrest : ∀ v ∈ rest, anyIn ["time", "clock"] (pyLower v) = false :=
        fun v hv => hus v (List.mem_cons_of_mem _ hv)
      simp only [pttRespondSeq]
      rw [pttGenerateResponse_clock_free st u (clock k) (clock' k') hu]
      exact congrArg _ (ih hrest clock clock' (k + 1) (k' + 1) _)

/-- C6 — witness: a concrete two-utterance session without time queries
gets identical replies under two different clock streams and offsets. -/
theorem c6_witness :
    pttRespondSeq (fun _ => "01:00 PM") 0 pttFreshState ["hello", "What is your job"] =
    pttRespondSeq (fun _ => "02:00 PM") 5 pttFreshState ["hello", "What is your job"] :=
  c6_dispatcher_deterministic_without_time ["hello", "What is your job"]
    (by decide) (fun _ => "01:00 PM") (fun _ => "02:00 PM") 0 5 pttFreshState

/-! ## Claim C7 -/

/-- C7 — counterexample. On a signal delivered inside the conversation
loop, cleanup does not run exactly once: `signal_handler` runs it, and
the `SystemExit` raised by `sys.exit(0)` then runs `run_conversation`'s
`finally`, which runs it a second time. -/
theorem c7_counterexample :
    (ceMainSignalled ⟨true, 0⟩).1.cleanupRuns = 2 ∧
    ¬ (ceMainSignalled ⟨true, 0⟩).1.cleanupRuns = 1 := by
  decide

/-- C7 (amended): a delivered interrupt/terminate signal flips `running`
to false and the process exits with success status 0 after cleanup, but
cleanup executes exactly *twice* on this path — once inline in
`signal_handler` and once more in `run_conversation`'s `finally` as the
`SystemExit` propagates; there is no single-execution latch (cleanup is
merely written to tolerate repetition, every deletion failure being
swallowed). -/
theorem c7_signal_shutdown_trace (s : CEState) :
    ceMainSignalled s = (⟨false, s.cleanupRuns + 2⟩, 0) := by
  simp [ceMainSignalled, ceRunConversationSignalled, ceSignalHandler, ceCleanup]

/-- C7 — witness: the concrete initial process state. -/
theorem c7_witness :
    ceMainSignalled ⟨true, 0⟩ = (⟨false, 2⟩, 0) :=
  c7_signal_shutdown_trace ⟨true, 0⟩

/-! ## Claim C8 -/

/-- C8: per-turn errors are recovered at the loop boundary of
`VoiceChat.run_conversation`. (i) A failed capture (timeout,
unintelligible speech, or recognition-service error — `listen_for_speech`
returns `None` for each) consumes the iteration and changes nothing
else: history, synthesis counts and the stopped flag are those of the
remaining session. (ii) A synthesis/playback failure (swallowed inside
`synthesize_response`) has no effect on the loop. (iii) The loop never
terminates on any per-turn error: over any input sequence with no
exit-phrase transcript it consumes every capture result and does not
stop — the only stop path inside the loop is the exit-phrase `break`. -/
theorem c8_loop_error_recovery :
    (∀ (hist : List (String × String)) (rest : List VCInput),
        (vcRunConversation hist (.captureFail :: rest)).history =
          (vcRunConversation hist rest).history ∧
        (vcRunConversation hist (.captureFail :: rest)).consumed =
          (vcRunConversation hist rest).consumed + 1 ∧
        (vcRunConversation hist (.captureFail :: rest)).regularSynths =
          (vcRunConversation hist rest).regularSynths ∧
        (vcRunConversation hist (.captureFail :: rest)).stopped =
          (vcRunConversation hist rest).stopped)
  ∧ (∀ (hist : List (String × String)) (t : String) (ridx : Nat)
        (clk : String) (rest : List VCInput),
        vcRunConversation hist (.heard t ridx clk true :: rest) =
          vcRunConversation hist (.heard t ridx clk false :: rest))
  ∧ (∀ (hist : List (String × String)) (inputs : List VCInput),
        (∀ i ∈ inputs, vcInputIsExit i = false) →
        (vcRunConversation hist inputs).stopped = false ∧
        (vcRunConversation hist inputs).consumed = inputs.length) := by
  refine ⟨?_, ?_, ?_⟩
  · intro hist rest
    refine ⟨?_, ?_, ?_, ?_⟩ <;> simp [vcRunConversation]
  · intro hist t ridx clk rest
    rfl
  · intro hist inputs
    induction inputs generalizing hist with
    | nil => intro _; exact ⟨rfl, rfl⟩
    | cons i rest ih =>
        intro hin
        have hi : vcInputIsExit i = false := hin i (List.mem_cons_self _ _)
        have hrest : ∀ j ∈ rest, vcInputIsExit j = false :=
          fun j hj => hin j (List.mem_cons_of_mem _ hj)
        cases i with
        | captureFail =>
            obtain ⟨h1, h2⟩ := ih hist hrest
            refine ⟨?_, ?_⟩ <;> simp [vcRunConversation, h1, h2]
        | heard t ridx clk sf =>
            have ht : vcIsExit t = false := by simpa [vcInputIsExit] using hi
            obtain ⟨h1, h2⟩ :=
              ih (hist ++ [("user", t), ("assistant", vcGenerateResponse t ridx clk)]) hrest
            refine ⟨?_, ?_⟩ <;> simp [vcRunConversation, ht, h1, h2]

/-- C8 — witness: a concrete session whose every turn fails somewhere
(capture timeout, then a turn whose synthesis fails) is fully consumed
without stopping. -/
theorem c8_witness :
    (vcRunConversation [] [.captureFail, .heard "nice day" 4 "01:00 PM" true]).stopped
        = false ∧
    (vcRunConversation [] [.captureFail, .heard "nice day" 4 "01:00 PM" true]).consumed
        = 2 :=
  c8_loop_error_recovery.2.2 []
    [.captureFail, .heard "nice day" 4 "01:00 PM" true] (by decide)

/-! ## Claim C9 -/

/-- C9: release before any chunk is appended yields the empty-capture
result (`None`), and only a nonempty chunk sequence reaches the
concatenation, whose payload is the in-order flattening of the chunks'
raw bytes. In the source the concatenation (and the `audio_data[0]`
metadata access) is guarded by `if not self.audio_data: return None`, so
it is never executed on an empty chunk sequence. -/
theorem c9_empty_capture (chunks : List AudioChunk) :
    (pttCombineCapture chunks = none ↔ chunks = []) ∧
    (∀ a : AudioData, pttCombineCapture chunks = some a →
      a.raw = (chunks.map AudioChunk.raw).flatten) := by
  cases chunks with
  | nil =>
      refine ⟨by simp [pttCombineCapture], ?_⟩
      intro a h
      simp [pttCombineCapture] at h
  | cons c rest =>
      refine ⟨by simp [pttCombineCapture], ?_⟩
      intro a h
      simp only [pttCombineCapture, Option.some.injEq] at h
      rw [← h]

/-- C9 — witness: the empty capture returns `None`, and a concrete
two-chunk capture concatenates in order. -/
theorem c9_witness :
    (pttCombineCapture [] = none) ∧
    (⟨[1, 2, 3], 16000, 2⟩ : AudioData).raw =
      ([⟨[1, 2], 16000, 2⟩, (⟨[3], 16000, 2⟩ : AudioChunk)].map AudioChunk.raw).flatten :=
  ⟨(c9_empty_capture []).1.mpr rfl,
   (c9_empty_capture [⟨[1, 2], 16000, 2⟩, ⟨[3], 16000, 2⟩]).2
      ⟨[1, 2, 3], 16000, 2⟩ (by decide)⟩

/-! ## Claim C10 -/

/-- C10: once `user_name` holds a non-empty value, no later dispatcher
call modifies it. The extraction block in both `PushToTalkChat` and
`SmartEdgeVoiceChat` is guarded by `if not self.user_name and ...`, and
no other statement writes `user_name`, so a truthy stored name is stable
for the rest of the session regardless of later self-introductions. -/
theorem c10_username_frame :
    (∀ (st : PttState) (u clock n : String),
        st.userName = some n → n ≠ "" →
        (pttGenerateResponse st u clock).1.userName = some n)
  ∧ (∀ (st : SmartState) (u n : String),
        st.userName = some n → n ≠ "" →
        (smartProfileUpdate st u).userName = some n) := by
  constructor
  · intro st u clock n hn hne
    have ht : optStrTruthy (some n) = true := bne_iff_ne.mpr hne
    show (pttUpdateState st u).userName = some n
    simp [pttUpdateState, hn, ht]
  · intro st u n hn hne
    have ht : optStrTruthy (some n) = true := bne_iff_ne.mpr hne
    simp [smartProfileUpdate, hn, ht]

/-- C10 — witness: a session that already stored `"Dave"` ignores a later
self-introduction as `"Bob"`, in both dispatchers. -/
theorem c10_witness :
    (pttGenerateResponse ⟨some "Dave", [], 3⟩ "my name is Bob" "01:00 PM").1.userName
        = some "Dave" ∧
    (smartProfileUpdate ⟨some "Dave", ["work"], 3, []⟩ "my name is Bob").userName
        = some "Dave" :=
  ⟨c10_username_frame.1 ⟨some "Dave", [], 3⟩ "my name is Bob" "01:00 PM" "Dave"
      rfl (by decide),
   c10_username_frame.2 ⟨some "Dave", ["work"], 3, []⟩ "my name is Bob" "Dave"
      rfl (by decide)⟩
